import Mathlib

set_option maxRecDepth 10000

/-!
Shallow embedding of the Tetris utility library (`src/tetris.js`) and
verification of its specification.

Coordinates are modelled as `Int` (JavaScript numbers used integrally by the
board logic), touch/tap coordinates as `Rat` (they may be fractional), and
piece shapes as `List (List Nat)` of 0/1 cells, exactly as in the source.
-/

/-- A template entry of `TETRIS_PIECES`: shape grid, CSS color, name. -/
structure PieceData where
  shape : List (List Nat)
  color : String
  name : String
deriving DecidableEq, Repr

/-- The seven piece templates, copied from `TETRIS_PIECES` in `src/tetris.js`. -/
def TETRIS_PIECES : List PieceData :=
  [ { shape := [[1,1,1,1]], color := "#0ff", name := "I" }
  , { shape := [[1,1],[1,1]], color := "#ff0", name := "O" }
  , { shape := [[0,1,0],[1,1,1]], color := "#f0f", name := "T" }
  , { shape := [[0,1,1],[1,1,0]], color := "#0f0", name := "S" }
  , { shape := [[1,1,0],[0,1,1]], color := "#f00", name := "Z" }
  , { shape := [[1,0,0],[1,1,1]], color := "#fa0", name := "L" }
  , { shape := [[0,0,1],[1,1,1]], color := "#00f", name := "J" } ]

/-- The mutable state of a `TetrisPiece` object. -/
structure TetrisPiece where
  shape : List (List Nat)
  color : String
  name : String
  x : Int
  y : Int
deriving DecidableEq, Repr

/-- `this.shape[0].length` in the source: width of a shape grid. -/
def shapeWidth (s : List (List Nat)) : Nat := (s.headD []).length

/-- `this.shape.length` in the source: height of a shape grid. -/
def shapeHeight (s : List (List Nat)) : Nat := s.length

/-- The `TetrisPiece` constructor.  The JS deep copy
`pieceData.shape.map(row => [...row])` is the identity on immutable values,
so `shape` is taken as is.  `Math.floor` on a real quotient of integers is
integer floor division (`Int.fdiv`). -/
def mkTetrisPiece (pieceData : PieceData) (boardWidth : Int) (startY : Int) : TetrisPiece :=
  { shape := pieceData.shape
  , color := pieceData.color
  , name := pieceData.name
  , x := Int.fdiv boardWidth 2 - Int.fdiv (shapeWidth pieceData.shape : Int) 2
  , y := startY }

/-- `rotateMatrixClockwise`: for `y < cols`, `x < rows`,
`rotated[y][x] = matrix[rows - 1 - x][y]`.  Out-of-range reads default
(they never occur on rectangular input). -/
def rotateMatrixClockwise (matrix : List (List Nat)) : List (List Nat) :=
  (List.range (matrix.headD []).length).map (fun y =>
    (List.range matrix.length).map (fun x =>
      (matrix.getD (matrix.length - 1 - x) []).getD y 0))

/-- `rotateMatrixCounterClockwise`: for `y < cols`, `x < rows`,
`rotated[y][x] = matrix[x][cols - 1 - y]`. -/
def rotateMatrixCounterClockwise (matrix : List (List Nat)) : List (List Nat) :=
  (List.range (matrix.headD []).length).map (fun y =>
    (List.range matrix.length).map (fun x =>
      (matrix.getD x []).getD ((matrix.headD []).length - 1 - y) 0))

/-- `TetrisPiece.prototype.rotateTowards`.  Returns the JS boolean result
together with the piece state after the call. -/
def TetrisPiece.rotateTowards (p : TetrisPiece) (tapX : Rat)
    (boardWidth boardHeight : Int) : Bool × TetrisPiece :=
  let newShape :=
    if tapX > (p.x : Rat) + (shapeWidth p.shape : Rat) / 2
    then rotateMatrixClockwise p.shape
    else rotateMatrixCounterClockwise p.shape
  if p.x + (shapeWidth newShape : Int) ≤ boardWidth ∧
     p.y + (shapeHeight newShape : Int) ≤ boardHeight then
    (true, { p with shape := newShape })
  else
    (false, p)

/-- `TetrisPiece.prototype.move`. -/
def TetrisPiece.move (p : TetrisPiece) (dx dy boardWidth boardHeight : Int) :
    Bool × TetrisPiece :=
  if 0 ≤ p.x + dx ∧ p.x + dx + (shapeWidth p.shape : Int) ≤ boardWidth ∧
     0 ≤ p.y + dy ∧ p.y + dy + (shapeHeight p.shape : Int) ≤ boardHeight then
    (true, { p with x := p.x + dx, y := p.y + dy })
  else
    (false, p)

/-- JavaScript `Math.round`: round half toward positive infinity. -/
def jsRound (q : Rat) : Int := ⌊q + 1/2⌋

/-- `TetrisPiece.prototype.setX`.  Clamps the rounded target into
`[0, boardWidth - shapeWidth]` (`Math.max` applied last). -/
def TetrisPiece.setX (p : TetrisPiece) (newX : Rat) (boardWidth : Int) :
    Bool × TetrisPiece :=
  let constrainedX :=
    max 0 (min (boardWidth - (shapeWidth p.shape : Int)) (jsRound newX))
  if constrainedX ≠ p.x then
    (true, { p with x := constrainedX })
  else
    (false, p)

/-- The `while (testY + this.shape.length < boardHeight) testY++` loop of
`getGhostY`. -/
def ghostLoop (shLen boardHeight testY : Int) : Int :=
  if testY + shLen < boardHeight then
    ghostLoop shLen boardHeight (testY + 1)
  else
    testY
termination_by (boardHeight - shLen - testY).toNat
decreasing_by omega

/-- `TetrisPiece.prototype.getGhostY` (pure, does not modify the piece). -/
def TetrisPiece.getGhostY (p : TetrisPiece) (boardHeight : Int) : Int :=
  ghostLoop (shapeHeight p.shape : Int) boardHeight p.y

/-- `TetrisPiece.prototype.teleportToGhost`. -/
def TetrisPiece.teleportToGhost (p : TetrisPiece) (boardHeight : Int) : TetrisPiece :=
  { p with y := p.getGhostY boardHeight }

/-- `m` is a rectangular `R × C` grid. -/
def IsGrid (R C : Nat) (m : List (List Nat)) : Prop :=
  m.length = R ∧ ∀ row ∈ m, row.length = C

/-- The piece's bounding box lies inside the board. -/
def inBounds (boardWidth boardHeight : Int) (p : TetrisPiece) : Prop :=
  0 ≤ p.x ∧ p.x + (shapeWidth p.shape : Int) ≤ boardWidth ∧
  0 ≤ p.y ∧ p.y + (shapeHeight p.shape : Int) ≤ boardHeight

/-- Every cell of the shape grid maps to a board cell in
`[0, boardWidth) × [0, boardHeight)`. -/
def occupiedInBounds (boardWidth boardHeight : Int) (p : TetrisPiece) : Prop :=
  ∀ cy < shapeHeight p.shape, ∀ cx < (p.shape.getD cy []).length,
    0 ≤ p.x + (cx : Int) ∧ p.x + (cx : Int) < boardWidth ∧
    0 ≤ p.y + (cy : Int) ∧ p.y + (cy : Int) < boardHeight

instance (R C : Nat) (m : List (List Nat)) : Decidable (IsGrid R C m) :=
  inferInstanceAs (Decidable (_ ∧ _))

instance (bw bh : Int) (p : TetrisPiece) : Decidable (inBounds bw bh p) :=
  inferInstanceAs (Decidable (_ ∧ _ ∧ _ ∧ _))

instance (bw bh : Int) (p : TetrisPiece) : Decidable (occupiedInBounds bw bh p) :=
  inferInstanceAs (Decidable (∀ _ < _, ∀ _ < _, _ ∧ _ ∧ _ ∧ _))

/-! ### Helper lemmas -/

theorem getD_range_map {α : Type} (f : Nat → α) (d : α) {i n : Nat} (h : i < n) :
    ((List.range n).map f).getD i d = f i := by
  rw [List.getD_eq_getElem?_getD, List.getElem?_map, List.getElem?_range h]
  rfl

theorem headD_eq_getD {α : Type} (l : List α) (d : α) : l.headD d = l.getD 0 d := by
  cases l <;> rfl

theorem range_map_getD {α : Type} (l : List α) (d : α) :
    (List.range l.length).map (fun i => l.getD i d) = l := by
  induction l with
  | nil => simp
  | cons a t ih =>
    rw [List.length_cons, List.range_succ_eq_map, List.map_cons, List.map_map]
    have h2 : ((fun i => (a :: t).getD i d) ∘ Nat.succ) = fun i => t.getD i d := rfl
    rw [h2, ih]
    rfl

theorem grid_headD_length {R C : Nat} {m : List (List Nat)}
    (hg : IsGrid R C m) (hR : 0 < R) : (m.headD []).length = C := by
  cases m with
  | nil =>
    have h0 := hg.1
    simp at h0
    omega
  | cons a t => exact hg.2 a (by simp)

theorem grid_row_length {R C : Nat} {m : List (List Nat)}
    (hg : IsGrid R C m) {i : Nat} (hi : i < m.length) :
    (m.getD i []).length = C := by
  have hmem : m.getD i [] ∈ m := by
    rw [List.getD_eq_getElem m [] hi]
    exact List.getElem_mem hi
  exact hg.2 _ hmem

theorem length_rotCW (m : List (List Nat)) :
    (rotateMatrixClockwise m).length = (m.headD []).length := by
  simp [rotateMatrixClockwise]

theorem length_rotCCW (m : List (List Nat)) :
    (rotateMatrixCounterClockwise m).length = (m.headD []).length := by
  simp [rotateMatrixCounterClockwise]

theorem headD_rotCW_length (m : List (List Nat)) (h : 0 < (m.headD []).length) :
    ((rotateMatrixClockwise m).headD []).length = m.length := by
  rw [headD_eq_getD]
  unfold rotateMatrixClockwise
  rw [getD_range_map _ _ h]
  simp

theorem headD_rotCCW_length (m : List (List Nat)) (h : 0 < (m.headD []).length) :
    ((rotateMatrixCounterClockwise m).headD []).length = m.length := by
  rw [headD_eq_getD]
  unfold rotateMatrixCounterClockwise
  rw [getD_range_map _ _ h]
  simp

theorem rotCW_entry (m : List (List Nat)) {y x : Nat}
    (hy : y < (m.headD []).length) (hx : x < m.length) :
    ((rotateMatrixClockwise m).getD y []).getD x 0
      = (m.getD (m.length - 1 - x) []).getD y 0 := by
  unfold rotateMatrixClockwise
  rw [getD_range_map _ _ hy, getD_range_map _ _ hx]

theorem rotCCW_entry (m : List (List Nat)) {y x : Nat}
    (hy : y < (m.headD []).length) (hx : x < m.length) :
    ((rotateMatrixCounterClockwise m).getD y []).getD x 0
      = (m.getD x []).getD ((m.headD []).length - 1 - y) 0 := by
  unfold rotateMatrixCounterClockwise
  rw [getD_range_map _ _ hy, getD_range_map _ _ hx]

theorem rotCW_isGrid {R C : Nat} {m : List (List Nat)}
    (hg : IsGrid R C m) (hR : 0 < R) :
    IsGrid C R (rotateMatrixClockwise m) := by
  constructor
  · rw [length_rotCW, grid_headD_length hg hR]
  · intro row hrow
    unfold rotateMatrixClockwise at hrow
    obtain ⟨y, hy, rfl⟩ := List.mem_map.mp hrow
    simp [hg.1]

theorem rotCCW_isGrid {R C : Nat} {m : List (List Nat)}
    (hg : IsGrid R C m) (hR : 0 < R) :
    IsGrid C R (rotateMatrixCounterClockwise m) := by
  constructor
  · rw [length_rotCCW, grid_headD_length hg hR]
  · intro row hrow
    unfold rotateMatrixCounterClockwise at hrow
    obtain ⟨y, hy, rfl⟩ := List.mem_map.mp hrow
    simp [hg.1]

theorem ghostLoop_eq (shLen bh : Int) :
    ∀ (n : Nat) (y : Int), (bh - shLen - y).toNat = n → y + shLen ≤ bh →
      ghostLoop shLen bh y = bh - shLen := by
  intro n
  induction n with
  | zero =>
    intro y hn hle
    rw [ghostLoop]
    have hnot : ¬ (y + shLen < bh) := by omega
    rw [if_neg hnot]
    omega
  | succ k ih =>
    intro y hn hle
    rw [ghostLoop]
    by_cases hc : y + shLen < bh
    · rw [if_pos hc]
      exact ih (y + 1) (by omega) (by omega)
    · rw [if_neg hc]
      omega

theorem getGhostY_eq (p : TetrisPiece) (bh : Int)
    (h : p.y + (shapeHeight p.shape : Int) ≤ bh) :
    p.getGhostY bh = bh - (shapeHeight p.shape : Int) :=
  ghostLoop_eq _ bh _ p.y rfl h

theorem occupied_of_inBounds {R C : Nat} {p : TetrisPiece} {bw bh : Int}
    (hg : IsGrid R C p.shape) (hR : 0 < R) (hb : inBounds bw bh p) :
    occupiedInBounds bw bh p := by
  intro cy hcy cx hcx
  have hw : shapeWidth p.shape = C := grid_headD_length hg hR
  have hh : shapeHeight p.shape = R := hg.1
  have hrow : (p.shape.getD cy []).length = C :=
    grid_row_length hg (show cy < p.shape.length from hcy)
  have h1 := hb.1
  have h2 := hb.2.1
  have h3 := hb.2.2.1
  have h4 := hb.2.2.2
  rw [hw] at h2
  rw [hh] at h4
  rw [hrow] at hcx
  rw [hh] at hcy
  refine ⟨?_, ?_, ?_, ?_⟩ <;> omega

theorem jsRound_intCast (n : Int) : jsRound ((n : Rat)) = n := by
  unfold jsRound
  rw [Int.floor_int_add]
  norm_num

/-! ### Sample pieces used in concrete scenarios -/

/-- An I-piece at `x = 3, y = 0`, as created on a board of width 10. -/
def sampleI : TetrisPiece :=
  { shape := [[1,1,1,1]], color := "#0ff", name := "I", x := 3, y := 0 }

/-- One gravity step on a 10×20 board: `move(0, 1, 10, 20)`. -/
def dropStep (p : TetrisPiece) : TetrisPiece := (p.move 0 1 10 20).2

/-- An O-piece (shape height 2) at `y = 0`. -/
def sampleO : TetrisPiece :=
  { shape := [[1,1],[1,1]], color := "#ff0", name := "O", x := 4, y := 0 }

/-- A T-piece at the origin. -/
def sampleT : TetrisPiece :=
  { shape := [[0,1,0],[1,1,1]], color := "#f0f", name := "T", x := 0, y := 0 }

/-! ### setX helper lemmas -/

theorem setX_snd_x (p : TetrisPiece) (t : Rat) (bw : Int) :
    (p.setX t bw).2.x
      = max 0 (min (bw - (shapeWidth p.shape : Int)) (jsRound t)) := by
  simp only [TetrisPiece.setX]
  split_ifs with h
  · rfl
  · exact (not_ne_iff.mp h).symm

theorem setX_snd_y (p : TetrisPiece) (t : Rat) (bw : Int) :
    (p.setX t bw).2.y = p.y := by
  simp only [TetrisPiece.setX]
  split_ifs <;> rfl

theorem setX_snd_shape (p : TetrisPiece) (t : Rat) (bw : Int) :
    (p.setX t bw).2.shape = p.shape := by
  simp only [TetrisPiece.setX]
  split_ifs <;> rfl

theorem setX_fst_iff (p : TetrisPiece) (t : Rat) (bw : Int) :
    (p.setX t bw).1 = true
      ↔ max 0 (min (bw - (shapeWidth p.shape : Int)) (jsRound t)) ≠ p.x := by
  simp only [TetrisPiece.setX]
  split_ifs with h
  · simp [h]
  · simp [h]

theorem setX_fst_false (p : TetrisPiece) (t : Rat) (bw : Int)
    (h : (p.setX t bw).1 = false) : (p.setX t bw).2 = p := by
  simp only [TetrisPiece.setX] at h ⊢
  split_ifs at h ⊢ with hc
  all_goals simp_all

theorem jsRound_neg_five : jsRound (-5 : Rat) = -5 := by
  have h : ((-5 : Rat)) = (((-5 : Int)) : Rat) := by norm_num
  rw [h, jsRound_intCast]

theorem jsRound_add_hundred (bw : Int) : jsRound ((bw : Rat) + 100) = bw + 100 := by
  have h : ((bw : Rat) + 100) = (((bw + 100 : Int)) : Rat) := by push_cast; ring
  rw [h, jsRound_intCast]

/-! ### Claim theorems -/

/-- Claim C2: for every non-empty rectangular `R × C` grid,
`rotateMatrixClockwise` returns the `C × R` grid with
`output[y][x] = input[R-1-x][y]` and `rotateMatrixCounterClockwise` the
`C × R` grid with `output[y][x] = input[x][C-1-y]`; one clockwise rotation
of the T template equals `[[1,0],[1,1],[1,0]]`. -/
theorem rotation_index_mappings (R C : Nat) (m : List (List Nat))
    (hg : IsGrid R C m) (hR : 0 < R) (hC : 0 < C) :
    (IsGrid C R (rotateMatrixClockwise m) ∧
     IsGrid C R (rotateMatrixCounterClockwise m) ∧
     (∀ y < C, ∀ x < R,
       ((rotateMatrixClockwise m).getD y []).getD x 0
         = (m.getD (R - 1 - x) []).getD y 0) ∧
     (∀ y < C, ∀ x < R,
       ((rotateMatrixCounterClockwise m).getD y []).getD x 0
         = (m.getD x []).getD (C - 1 - y) 0)) ∧
    rotateMatrixClockwise [[0,1,0],[1,1,1]] = [[1,0],[1,1],[1,0]] := by
  have hcols : (m.headD []).length = C := grid_headD_length hg hR
  have hrows : m.length = R := hg.1
  refine ⟨⟨rotCW_isGrid hg hR, rotCCW_isGrid hg hR, ?_, ?_⟩, by decide⟩
  · intro y hy x hx
    have hy' : y < (m.headD []).length := by rw [hcols]; exact hy
    have hx' : x < m.length := by rw [hrows]; exact hx
    rw [rotCW_entry m hy' hx', hrows]
  · intro y hy x hx
    have hy' : y < (m.headD []).length := by rw [hcols]; exact hy
    have hx' : x < m.length := by rw [hrows]; exact hx
    rw [rotCCW_entry m hy' hx', hcols]

/-- Witness for C2 at the T template (a 2 × 3 grid). -/
theorem rotation_index_mappings_witness :
    rotateMatrixClockwise [[0,1,0],[1,1,1]] = [[1,0],[1,1],[1,0]] :=
  (rotation_index_mappings 2 3 [[0,1,0],[1,1,1]]
    (by decide) (by decide) (by decide)).2

/-- Claim C7: clockwise then counter-clockwise rotation is the identity on
every non-empty rectangular grid, in particular on the 7 templates. -/
theorem rotation_inverse_pair (R C : Nat) (m : List (List Nat))
    (hg : IsGrid R C m) (hR : 0 < R) (hC : 0 < C) :
    rotateMatrixCounterClockwise (rotateMatrixClockwise m) = m ∧
    ∀ pd ∈ TETRIS_PIECES,
      rotateMatrixCounterClockwise (rotateMatrixClockwise pd.shape)
        = pd.shape := by
  have hcols : (m.headD []).length = C := grid_headD_length hg hR
  have hrows : m.length = R := hg.1
  refine ⟨?_, by decide⟩
  have hn_len : (rotateMatrixClockwise m).length = C := by
    rw [length_rotCW, hcols]
  have hn_head : ((rotateMatrixClockwise m).headD []).length = R := by
    rw [headD_rotCW_length m (by rw [hcols]; exact hC), hrows]
  unfold rotateMatrixCounterClockwise
  rw [hn_head, hn_len]
  conv_rhs => rw [← range_map_getD m []]
  conv_rhs => rw [hrows]
  apply List.map_congr_left
  intro y hy
  rw [List.mem_range] at hy
  have hrowlen : (m.getD y []).length = C :=
    grid_row_length hg (by rw [hrows]; exact hy)
  conv_rhs => rw [← range_map_getD (m.getD y []) 0]
  conv_rhs => rw [hrowlen]
  apply List.map_congr_left
  intro x hx
  rw [List.mem_range] at hx
  have hx' : x < (m.headD []).length := by rw [hcols]; exact hx
  have hRy : R - 1 - y < m.length := by rw [hrows]; omega
  rw [rotCW_entry m hx' hRy, hrows]
  have hyy : R - 1 - (R - 1 - y) = y := by omega
  rw [hyy]

/-- Witness for C7 at the T template. -/
theorem rotation_inverse_pair_witness :
    rotateMatrixCounterClockwise (rotateMatrixClockwise [[0,1,0],[1,1,1]])
      = [[0,1,0],[1,1,1]] :=
  (rotation_inverse_pair 2 3 [[0,1,0],[1,1,1]]
    (by decide) (by decide) (by decide)).1

/-- Claim C8: applying `rotateMatrixClockwise` four times to any of the 7
template grids yields the original grid. -/
theorem rotation_order_four (pd : PieceData) (hmem : pd ∈ TETRIS_PIECES) :
    rotateMatrixClockwise (rotateMatrixClockwise (rotateMatrixClockwise
      (rotateMatrixClockwise pd.shape))) = pd.shape := by
  have h : ∀ q ∈ TETRIS_PIECES,
      rotateMatrixClockwise (rotateMatrixClockwise (rotateMatrixClockwise
        (rotateMatrixClockwise q.shape))) = q.shape := by decide
  exact h pd hmem

/-- Witness for C8 at the I template. -/
theorem rotation_order_four_witness :
    rotateMatrixClockwise (rotateMatrixClockwise (rotateMatrixClockwise
      (rotateMatrixClockwise [[1,1,1,1]]))) = [[1,1,1,1]] :=
  rotation_order_four
    { shape := [[1,1,1,1]], color := "#0ff", name := "I" } (by decide)

/-- Claim C9: constructing a piece from any of the 7 templates on a board of
positive width sets `x = floor(boardWidth/2) - floor(templateWidth/2)` and
`y = startRow`, copying the template fields; an I-piece on a board of width
10 starts at `x = 3, y = 0`. -/
theorem creation_centering (pd : PieceData) (hmem : pd ∈ TETRIS_PIECES)
    (bw startY : Int) (hbw : 0 < bw) :
    (mkTetrisPiece pd bw startY).x
        = Int.fdiv bw 2 - Int.fdiv (shapeWidth pd.shape : Int) 2 ∧
    (mkTetrisPiece pd bw startY).y = startY ∧
    (mkTetrisPiece pd bw startY).shape = pd.shape ∧
    (mkTetrisPiece pd bw startY).color = pd.color ∧
    (mkTetrisPiece pd bw startY).name = pd.name ∧
    (mkTetrisPiece { shape := [[1,1,1,1]], color := "#0ff", name := "I" } 10 0).x = 3 ∧
    (mkTetrisPiece { shape := [[1,1,1,1]], color := "#0ff", name := "I" } 10 0).y = 0 :=
  ⟨rfl, rfl, rfl, rfl, rfl, by decide, rfl⟩

/-- Witness for C9: the I-piece instance on a board of width 10. -/
theorem creation_centering_witness :
    (mkTetrisPiece { shape := [[1,1,1,1]], color := "#0ff", name := "I" } 10 0).x = 3 :=
  (creation_centering { shape := [[1,1,1,1]], color := "#0ff", name := "I" }
    (by decide) 10 0 (by decide)).2.2.2.2.2.1

/-- Claim C4: `move` succeeds iff the translated bounding box is in bounds,
commits both coordinates atomically on success, changes nothing on failure;
the I-piece at `x=3, y=0` on a 10×20 board accepts `move(0,1)` nineteen
times reaching `y = 19`, and the twentieth call fails leaving `y = 19`. -/
theorem move_contract (p : TetrisPiece) (dx dy bw bh : Int) :
    ((p.move dx dy bw bh).1 = true ↔
      0 ≤ p.x + dx ∧ p.x + dx + (shapeWidth p.shape : Int) ≤ bw ∧
      0 ≤ p.y + dy ∧ p.y + dy + (shapeHeight p.shape : Int) ≤ bh) ∧
    ((p.move dx dy bw bh).1 = true →
      (p.move dx dy bw bh).2 = { p with x := p.x + dx, y := p.y + dy }) ∧
    ((p.move dx dy bw bh).1 = false → (p.move dx dy bw bh).2 = p) ∧
    (∀ k < 19, ((dropStep^[k] sampleI).move 0 1 10 20).1 = true) ∧
    (dropStep^[19] sampleI).y = 19 ∧
    ((dropStep^[19] sampleI).move 0 1 10 20).1 = false ∧
    ((dropStep^[19] sampleI).move 0 1 10 20).2.y = 19 := by
  refine ⟨?_, ?_, ?_, by decide, by decide, by decide, by decide⟩
  · simp only [TetrisPiece.move]
    split_ifs with h
    · simp [h]
    · simp [h]
  · simp only [TetrisPiece.move]
    split_ifs with h
    · simp
    · simp
  · simp only [TetrisPiece.move]
    split_ifs with h
    · simp
    · simp

/-- Witness for C4: the first gravity step of the scenario succeeds. -/
theorem move_contract_witness : (sampleI.move 0 1 10 20).1 = true :=
  (move_contract sampleI 0 1 10 20).1.mpr (by decide)

/-- Claim C6: with `boardWidth ≥ shapeWidth`, `setX` stores the rounded
target clamped into `[0, boardWidth - shapeWidth]`, returns true iff the
clamped value differs from the current `x` (false leaves the piece
unchanged), and only the `x` field can change; `setX(-5)` yields `x = 0`
and `setX(boardWidth+100)` yields `x = boardWidth - shapeWidth`. -/
theorem setX_clamp_contract (p : TetrisPiece) (t : Rat) (bw : Int)
    (hw : (shapeWidth p.shape : Int) ≤ bw) :
    ((p.setX t bw).2.x
        = max 0 (min (bw - (shapeWidth p.shape : Int)) (jsRound t))) ∧
    0 ≤ (p.setX t bw).2.x ∧
    (p.setX t bw).2.x ≤ bw - (shapeWidth p.shape : Int) ∧
    ((p.setX t bw).1 = true ↔
        max 0 (min (bw - (shapeWidth p.shape : Int)) (jsRound t)) ≠ p.x) ∧
    ((p.setX t bw).1 = false → (p.setX t bw).2 = p) ∧
    (p.setX t bw).2.y = p.y ∧
    (p.setX t bw).2.shape = p.shape ∧
    (p.setX (-5) bw).2.x = 0 ∧
    (p.setX ((bw : Rat) + 100) bw).2.x = bw - (shapeWidth p.shape : Int) := by
  refine ⟨setX_snd_x p t bw, ?_, ?_, setX_fst_iff p t bw,
    setX_fst_false p t bw, setX_snd_y p t bw, setX_snd_shape p t bw, ?_, ?_⟩
  · rw [setX_snd_x]
    omega
  · rw [setX_snd_x]
    omega
  · rw [setX_snd_x, jsRound_neg_five]
    omega
  · rw [setX_snd_x, jsRound_add_hundred]
    omega

/-- Witness for C6: `setX` on the I-piece on a 10-wide board. -/
theorem setX_clamp_contract_witness : (sampleI.setX 0 10).2.y = sampleI.y :=
  (setX_clamp_contract sampleI 0 10 (by decide)).2.2.2.2.2.1

/-- Claim C10 (implicit): for arbitrary `boardWidth` — including boards
narrower than the piece — `setX` stores
`max 0 (min (boardWidth - shapeWidth) (round targetX))`, which is never
negative, and on a too-narrow board the stored `x` is 0. -/
theorem setX_lower_bound_wins (p : TetrisPiece) (t : Rat) (bw : Int) :
    ((p.setX t bw).2.x
        = max 0 (min (bw - (shapeWidth p.shape : Int)) (jsRound t))) ∧
    0 ≤ (p.setX t bw).2.x ∧
    (bw < (shapeWidth p.shape : Int) → (p.setX t bw).2.x = 0) := by
  refine ⟨setX_snd_x p t bw, ?_, ?_⟩
  · rw [setX_snd_x]
    omega
  · intro h
    rw [setX_snd_x]
    omega

/-- Witness for C10: board of width 2 is narrower than the I-piece. -/
theorem setX_lower_bound_wins_witness : (sampleI.setX 0 2).2.x = 0 :=
  (setX_lower_bound_wins sampleI 0 2).2.2 (by decide)

/-- Claim C5: for a piece whose bounding box fits vertically, `getGhostY`
returns exactly `boardHeight - shapeHeight` (floor-only drop), which is at
least the current `y`; `teleportToGhost` sets `y` to that value and changes
no other field; a piece of height 2 at `y = 0` on a board of height 20 ends
at `y = 18`. -/
theorem ghost_projection (p : TetrisPiece) (bh : Int)
    (h0 : 0 ≤ p.y) (h1 : p.y + (shapeHeight p.shape : Int) ≤ bh) :
    p.y ≤ p.getGhostY bh ∧
    p.getGhostY bh + (shapeHeight p.shape : Int) ≤ bh ∧
    p.getGhostY bh + (shapeHeight p.shape : Int) = bh ∧
    p.teleportToGhost bh = { p with y := p.getGhostY bh } ∧
    (sampleO.teleportToGhost 20).y = 18 ∧
    (sampleO.teleportToGhost 20).x = sampleO.x ∧
    (sampleO.teleportToGhost 20).shape = sampleO.shape := by
  have he := getGhostY_eq p bh h1
  refine ⟨by omega, by omega, by omega, rfl, ?_, rfl, rfl⟩
  show sampleO.getGhostY 20 = 18
  rw [getGhostY_eq sampleO 20 (by decide)]
  decide

/-- Witness for C5 at the O-piece on a board of height 20. -/
theorem ghost_projection_witness :
    sampleO.getGhostY 20 + (shapeHeight sampleO.shape : Int) = 20 :=
  (ghost_projection sampleO 20 (by decide) (by decide)).2.2.1

/-- Claim C3: `rotateTowards` picks clockwise iff the tap is strictly right
of the piece's center `x + shapeWidth/2`, succeeds iff the candidate grid
fits (`x + newWidth ≤ boardWidth` and `y + newHeight ≤ boardHeight`), in
which case only `shape` is replaced; on failure the piece is unchanged, and
`x`, `y`, `color`, `name` are never modified. -/
theorem rotateTowards_contract (p : TetrisPiece) (tapX : Rat) (bw bh : Int)
    (g : List (List Nat))
    (hgdef : g = if tapX > (p.x : Rat) + (shapeWidth p.shape : Rat) / 2
        then rotateMatrixClockwise p.shape
        else rotateMatrixCounterClockwise p.shape) :
    ((p.rotateTowards tapX bw bh).1 = true ↔
      p.x + (shapeWidth g : Int) ≤ bw ∧ p.y + (shapeHeight g : Int) ≤ bh) ∧
    ((p.rotateTowards tapX bw bh).1 = true →
      (p.rotateTowards tapX bw bh).2 = { p with shape := g }) ∧
    ((p.rotateTowards tapX bw bh).1 = false →
      (p.rotateTowards tapX bw bh).2 = p) ∧
    (p.rotateTowards tapX bw bh).2.x = p.x ∧
    (p.rotateTowards tapX bw bh).2.y = p.y ∧
    (p.rotateTowards tapX bw bh).2.color = p.color ∧
    (p.rotateTowards tapX bw bh).2.name = p.name := by
  subst hgdef
  simp only [TetrisPiece.rotateTowards]
  by_cases hdir : tapX > (p.x : Rat) + (shapeWidth p.shape : Rat) / 2
  · rw [if_pos hdir]
    split_ifs with hfit
    · simp [hfit]
    · simp [hfit]
  · rw [if_neg hdir]
    split_ifs with hfit
    · simp [hfit]
    · simp [hfit]

/-- Witness for C3: a tap at the center of the T-piece (counter-clockwise
branch) on a 10×20 board. -/
theorem rotateTowards_contract_witness :
    (sampleT.rotateTowards 10 10 20).2.x = sampleT.x :=
  (rotateTowards_contract sampleT 10 10 20 _ rfl).2.2.2.1

/-- Claim C1: starting from a piece with a non-empty rectangular shape whose
bounding box is in bounds, any single call to `move`, `setX`,
`rotateTowards` or `teleportToGhost` — successful or not — leaves the
bounding box (with the possibly new shape dimensions) in bounds, and hence
every occupied cell inside `[0, boardWidth) × [0, boardHeight)`. -/
theorem bounds_invariant (R C : Nat) (p : TetrisPiece) (bw bh : Int)
    (hg : IsGrid R C p.shape) (hR : 0 < R) (hC : 0 < C)
    (hb : inBounds bw bh p) :
    (∀ dx dy, inBounds bw bh (p.move dx dy bw bh).2
        ∧ occupiedInBounds bw bh (p.move dx dy bw bh).2) ∧
    (∀ t, inBounds bw bh (p.setX t bw).2
        ∧ occupiedInBounds bw bh (p.setX t bw).2) ∧
    (∀ tapX, inBounds bw bh (p.rotateTowards tapX bw bh).2
        ∧ occupiedInBounds bw bh (p.rotateTowards tapX bw bh).2) ∧
    (inBounds bw bh (p.teleportToGhost bh)
        ∧ occupiedInBounds bw bh (p.teleportToGhost bh)) := by
  obtain ⟨hx0, hxw, hy0, hyh⟩ := hb
  have hb : inBounds bw bh p := ⟨hx0, hxw, hy0, hyh⟩
  refine ⟨?_, ?_, ?_, ?_⟩
  · intro dx dy
    by_cases h : (0 ≤ p.x + dx ∧ p.x + dx + (shapeWidth p.shape : Int) ≤ bw ∧
        0 ≤ p.y + dy ∧ p.y + dy + (shapeHeight p.shape : Int) ≤ bh)
    · have hres : (p.move dx dy bw bh).2
          = { p with x := p.x + dx, y := p.y + dy } := by
        simp only [TetrisPiece.move]
        rw [if_pos h]
      rw [hres]
      have hb' : inBounds bw bh { p with x := p.x + dx, y := p.y + dy } :=
        ⟨h.1, h.2.1, h.2.2.1, h.2.2.2⟩
      exact ⟨hb', occupied_of_inBounds hg hR hb'⟩
    · have hres : (p.move dx dy bw bh).2 = p := by
        simp only [TetrisPiece.move]
        rw [if_neg h]
      rw [hres]
      exact ⟨hb, occupied_of_inBounds hg hR hb⟩
  · intro t
    have hxx := setX_snd_x p t bw
    have hyy := setX_snd_y p t bw
    have hss := setX_snd_shape p t bw
    have hb' : inBounds bw bh (p.setX t bw).2 := by
      unfold inBounds
      rw [hxx, hyy, hss]
      refine ⟨?_, ?_, hy0, hyh⟩ <;> omega
    have hg' : IsGrid R C (p.setX t bw).2.shape := by
      rw [hss]
      exact hg
    exact ⟨hb', occupied_of_inBounds hg' hR hb'⟩
  · intro tapX
    simp only [TetrisPiece.rotateTowards]
    split_ifs with hdir hfit hfit
    · have hb' : inBounds bw bh
          { p with shape := rotateMatrixClockwise p.shape } :=
        ⟨hx0, hfit.1, hy0, hfit.2⟩
      exact ⟨hb', occupied_of_inBounds (rotCW_isGrid hg hR) hC hb'⟩
    · exact ⟨hb, occupied_of_inBounds hg hR hb⟩
    · have hb' : inBounds bw bh
          { p with shape := rotateMatrixCounterClockwise p.shape } :=
        ⟨hx0, hfit.1, hy0, hfit.2⟩
      exact ⟨hb', occupied_of_inBounds (rotCCW_isGrid hg hR) hC hb'⟩
    · exact ⟨hb, occupied_of_inBounds hg hR hb⟩
  · have hgy : p.getGhostY bh = bh - (shapeHeight p.shape : Int) :=
      getGhostY_eq p bh hyh
    have hb' : inBounds bw bh (p.teleportToGhost bh) := by
      unfold TetrisPiece.teleportToGhost inBounds
      refine ⟨hx0, hxw, ?_, ?_⟩ <;> simp only [hgy] <;> omega
    exact ⟨hb', occupied_of_inBounds hg hR hb'⟩

/-- Witness for C1: the T-piece at the origin of a 10×20 board stays in
bounds after `teleportToGhost`. -/
theorem bounds_invariant_witness :
    inBounds 10 20 (sampleT.teleportToGhost 20) :=
  (bounds_invariant 2 3 sampleT 10 20
    (by decide) (by decide) (by decide) (by decide)).2.2.2.1
